import Mathlib

/-!
Verification of the AES-ICM (counter mode) cipher module
`crypto/cipher/aes_icm_hisi.c` of widgetii/libsrtp.

The C file implements the SRTP AES integer-counter-mode cipher life
cycle (allocate, context-init, set-IV, encrypt, dealloc) on top of the
HiSilicon hardware crypto API.  We embed the five life-cycle functions
as pure Lean functions.  Mutation of the context (done in place in C)
is modelled by returning the updated context; heap events that matter
to the specification (freeing or zeroizing the key buffer, allocation
counts) are recorded as explicit fields of the result structures.  The
external engine calls (`HI_UNF_CIPHER_CreateHandle`,
`HI_UNF_CIPHER_ConfigHandle`, `HI_UNF_CIPHER_EncryptVir`) are
collaborators outside the module; their outcomes are passed in as
parameters.
-/

/-- Error statuses from libsrtp's `srtp_err_status_t` (err.h), restricted
to the values this file returns: `srtp_err_status_ok`,
`srtp_err_status_fail`, `srtp_err_status_bad_param`,
`srtp_err_status_alloc_fail`, `srtp_err_status_cipher_fail`. -/
inductive srtp_err_status where
  | ok
  | fail
  | bad_param
  | alloc_fail
  | cipher_fail
deriving DecidableEq, Repr

/-- `srtp_cipher_direction_t` (cipher.h): direction argument of set-IV,
accepted but unused by `srtp_aes_icm_hisi_set_iv`. -/
inductive srtp_cipher_direction where
  | encrypt
  | decrypt
  | any
deriving DecidableEq, Repr

/-- `v128_t` (datatypes.h): a 128-bit value accessed byte-wise through
its `v8[16]` view.  Modelled as a function from byte index to byte
value. -/
abbrev V128 := Fin 16 → Nat

/-- `SRTP_SALT_LEN` = 14: the 112-bit SRTP salt, in bytes. -/
def SRTP_SALT_LEN : Nat := 14

/-- `SRTP_AES_128_KEY_LEN` = 16 (raw AES-128 key bytes). -/
def SRTP_AES_128_KEY_LEN : Nat := 16

/-- `SRTP_AES_192_KEY_LEN` = 24 (raw AES-192 key bytes). -/
def SRTP_AES_192_KEY_LEN : Nat := 24

/-- `SRTP_AES_256_KEY_LEN` = 32 (raw AES-256 key bytes). -/
def SRTP_AES_256_KEY_LEN : Nat := 32

/-- `SRTP_AES_ICM_128_KEY_LEN_WSALT` = 30 = 16 + 14.  The value is fixed
by the source file itself: its header comment says the key_len should be
one of 30, 38 or 46, and the AES-128 self-test key array declared with
this length holds exactly 30 bytes. -/
def SRTP_AES_ICM_128_KEY_LEN_WSALT : Nat := 30

/-- `SRTP_AES_ICM_192_KEY_LEN_WSALT` = 38 = 24 + 14 (38-byte AES-192
self-test key array in the source file). -/
def SRTP_AES_ICM_192_KEY_LEN_WSALT : Nat := 38

/-- `SRTP_AES_ICM_256_KEY_LEN_WSALT` = 46 = 32 + 14 (46-byte AES-256
self-test key array in the source file). -/
def SRTP_AES_ICM_256_KEY_LEN_WSALT : Nat := 46

/-- Vendor key-length codes `HI_UNF_CIPHER_KEY_AES_128BIT` /
`192BIT` / `256BIT` from the HiSilicon header (external collaborator);
only their distinctness matters here. -/
def HI_UNF_CIPHER_KEY_AES_128BIT : Nat := 0

/-- Vendor code for AES-192 keys. -/
def HI_UNF_CIPHER_KEY_AES_192BIT : Nat := 1

/-- Vendor code for AES-256 keys. -/
def HI_UNF_CIPHER_KEY_AES_256BIT : Nat := 2

/-- Modelled from the spec: `v128_set_to_zero` (datatypes.h, not under
src) zeroes all 16 bytes — "Set `offset` and `counter` to zero",
"supports zeroing". -/
def v128_set_to_zero : V128 := fun _ => 0

/-- Modelled from the spec: `v128_xor(z, x, y)` (datatypes.h, not under
src) is the byte-wise XOR — "`counter = offset XOR nonce`, byte-wise
across all 16 bytes", "field-wise XOR". -/
def v128_xor (x y : V128) : V128 := fun i => Nat.xor (x i) (y i)

/-- Modelled from the spec: `v128_copy_octet_string(x, s)` (datatypes.h,
not under src) loads 16 consecutive bytes of the octet string `s` —
"byte-string loading".  The octet string is modelled as a byte stream
`Nat → Nat`. -/
def v128_copy_octet_string (s : Nat → Nat) : V128 := fun i => s i.val

/-- `memcpy(dst, src, n)` restricted to a 16-byte destination block:
bytes `[0..n)` come from `src`, the rest keep their old value. -/
def v128_memcpy_first (dst : V128) (src : Nat → Nat) (n : Nat) : V128 :=
  fun i => if i.val < n then src i.val else dst i

/-- Byte store `x.v8[j] = b` on a 16-byte block. -/
def v128_set_byte (x : V128) (j : Nat) (b : Nat) : V128 :=
  fun i => if i.val = j then b else x i

/-- `srtp_aes_icm_ctx_t` (aes_icm_ext.h), restricted to the fields this
source file reads or writes: the working counter, the fixed offset, the
owned heap key buffer (`NULL` modelled as `none`), the raw key size, the
vendor key-type code, and the engine handle `hCipher`. -/
structure srtp_aes_icm_ctx where
  counter : V128
  offset : V128
  key : Option (List Nat)
  key_size : Nat
  key_type : Nat
  hCipher : Nat

/-- The algorithm / cipher-type descriptors this file can bind:
`srtp_aes_icm_128`, `srtp_aes_icm_192`, `srtp_aes_icm_256`. -/
inductive CipherAlg where
  | aes_icm_128
  | aes_icm_192
  | aes_icm_256
deriving DecidableEq, Repr

/-- `srtp_cipher_t` (cipher.h), restricted to the fields
`srtp_aes_icm_hisi_alloc` writes: the state pointer, the `algorithm`
identifier and the `type` descriptor pointer (both left as the allocator
zero/NULL value, modelled `none`, when no switch branch sets them), and
`key_len`. -/
structure srtp_cipher where
  state : Option srtp_aes_icm_ctx
  algorithm : Option CipherAlg
  type : Option CipherAlg
  key_len : Nat

/-- Result of `srtp_aes_icm_hisi_alloc`: the returned status, the value
left in the caller's `*c` slot (`cOut`), and the number of
`srtp_crypto_alloc`ed blocks still live when the function returns (0 on
every failure path, which all roll back; 2 on success: the cipher struct
and the icm context). -/
structure AllocResult where
  status : srtp_err_status
  cOut : Option srtp_cipher
  liveAllocs : Nat

/-- `srtp_aes_icm_hisi_alloc` (aes_icm_hisi.c lines 128-199).  Rejects
any `key_len` other than the three WSALT lengths, allocates the cipher
struct and the icm context (`srtp_crypto_alloc`, crypto/kernel/alloc.c,
returns zero-initialized memory — the later `if (c->key)` null test in
context-init depends on this), creates an engine handle, then switches
on `key_len` to bind the algorithm/type descriptor and raw key size.
The body of the `SRTP_AES_ICM_192_KEY_LEN_WSALT` case is commented out
in the source, so that branch changes nothing.  `c0` is the previous
contents of the caller's `*c` slot; `mallocCipherOk` / `mallocIcmOk` /
`createHandleOk` are the outcomes of the two heap allocations and of
`HI_UNF_CIPHER_CreateHandle` (`HI_UNF_CIPHER_Init` is asserted to
succeed in the source); `handle` is the created engine handle. -/
def srtp_aes_icm_hisi_alloc (key_len : Nat) (c0 : Option srtp_cipher)
    (mallocCipherOk mallocIcmOk createHandleOk : Bool) (handle : Nat) :
    AllocResult :=
  if key_len ≠ SRTP_AES_ICM_128_KEY_LEN_WSALT ∧
      key_len ≠ SRTP_AES_ICM_192_KEY_LEN_WSALT ∧
      key_len ≠ SRTP_AES_ICM_256_KEY_LEN_WSALT then
    { status := srtp_err_status.bad_param, cOut := c0, liveAllocs := 0 }
  else if ¬mallocCipherOk then
    { status := srtp_err_status.alloc_fail, cOut := none, liveAllocs := 0 }
  else if ¬mallocIcmOk then
    { status := srtp_err_status.alloc_fail, cOut := none, liveAllocs := 0 }
  else if ¬createHandleOk then
    { status := srtp_err_status.alloc_fail, cOut := none, liveAllocs := 0 }
  else
    let icm0 : srtp_aes_icm_ctx :=
      { counter := v128_set_to_zero, offset := v128_set_to_zero,
        key := none, key_size := 0, key_type := 0, hCipher := handle }
    let c1 : srtp_cipher :=
      { state := some icm0, algorithm := none, type := none, key_len := 0 }
    let c2 : srtp_cipher :=
      if key_len = SRTP_AES_ICM_128_KEY_LEN_WSALT then
        { c1 with algorithm := some CipherAlg.aes_icm_128,
                  type := some CipherAlg.aes_icm_128,
                  state := some { icm0 with key_size := SRTP_AES_128_KEY_LEN } }
      else if key_len = SRTP_AES_ICM_192_KEY_LEN_WSALT then
        c1
      else
        { c1 with algorithm := some CipherAlg.aes_icm_256,
                  type := some CipherAlg.aes_icm_256,
                  state := some { icm0 with key_size := SRTP_AES_256_KEY_LEN } }
    { status := srtp_err_status.ok,
      cOut := some { c2 with key_len := key_len },
      liveAllocs := 2 }

/-- Result of `srtp_aes_icm_hisi_dealloc`, with the heap events the
specification talks about recorded explicitly:
`destroyedHandle` — `HI_UNF_CIPHER_DestroyHandle` was called;
`zeroedCtxStruct` — `octet_string_set_to_zero(ctx, sizeof(...))` zeroed
the context struct itself (counter, offset, sizes, and the key pointer
field);
`zeroedKeyBuffer` — the heap bytes the key pointer refers to were
overwritten with zeros;
`freedKeyBuffer` — that heap buffer was freed;
`freedCtx` / `freedCipher` — the two struct allocations were freed. -/
structure DeallocResult where
  status : srtp_err_status
  destroyedHandle : Bool
  zeroedCtxStruct : Bool
  zeroedKeyBuffer : Bool
  freedKeyBuffer : Bool
  freedCtx : Bool
  freedCipher : Bool
deriving DecidableEq, Repr

/-- `srtp_aes_icm_hisi_dealloc` (aes_icm_hisi.c lines 204-233).  A NULL
cipher returns `srtp_err_status_bad_param` at once.  Otherwise, when the
state pointer is non-NULL the engine handle is destroyed, the context
STRUCT is zeroed (`octet_string_set_to_zero(ctx, sizeof(srtp_aes_icm_ctx_t))`
— this zeroes the key POINTER field but never dereferences it, so the
separately `malloc`ed key buffer is neither zeroed nor freed), and the
context is freed; finally the cipher struct is freed. -/
def srtp_aes_icm_hisi_dealloc (c : Option srtp_cipher) : DeallocResult :=
  match c with
  | none =>
      { status := srtp_err_status.bad_param, destroyedHandle := false,
        zeroedCtxStruct := false, zeroedKeyBuffer := false,
        freedKeyBuffer := false, freedCtx := false, freedCipher := false }
  | some cc =>
      match cc.state with
      | none =>
          { status := srtp_err_status.ok, destroyedHandle := false,
            zeroedCtxStruct := false, zeroedKeyBuffer := false,
            freedKeyBuffer := false, freedCtx := false, freedCipher := true }
      | some _ctx =>
          { status := srtp_err_status.ok, destroyedHandle := true,
            zeroedCtxStruct := true, zeroedKeyBuffer := false,
            freedKeyBuffer := false, freedCtx := true, freedCipher := true }

/-- Result of `srtp_aes_icm_hisi_context_init`: status, the mutated
context, and the fate of a previously held key buffer:
`freedOldKey` — `free(c->key)` was called on it;
`zeroedOldKey` — its bytes were overwritten with zeros before that. -/
structure InitResult where
  status : srtp_err_status
  ctx : srtp_aes_icm_ctx
  freedOldKey : Bool
  zeroedOldKey : Bool

/-- `srtp_aes_icm_hisi_context_init` (aes_icm_hisi.c lines 244-302).
Zeroes `counter` and `offset`, copies `SRTP_SALT_LEN` bytes from
`key + key_size` into both, forces bytes 14 and 15 of both to zero,
frees any previously held key buffer (plain `free`, no zeroing) and
copies the raw key bytes `key[0..key_size)` into a fresh buffer, then
switches on `key_size` to pick the vendor key-type code, returning
`bad_param` on any other size.  The key material is the byte stream
`key : Nat → Nat`. -/
def srtp_aes_icm_hisi_context_init (c : srtp_aes_icm_ctx) (key : Nat → Nat) :
    InitResult :=
  let salt : Nat → Nat := fun j => key (c.key_size + j)
  let counter1 := v128_memcpy_first v128_set_to_zero salt SRTP_SALT_LEN
  let offset1 := v128_memcpy_first v128_set_to_zero salt SRTP_SALT_LEN
  let offset2 :=
    v128_set_byte (v128_set_byte offset1 SRTP_SALT_LEN 0) (SRTP_SALT_LEN + 1) 0
  let counter2 :=
    v128_set_byte (v128_set_byte counter1 SRTP_SALT_LEN 0) (SRTP_SALT_LEN + 1) 0
  let newKey : List Nat := List.ofFn fun i : Fin c.key_size => key i.val
  -- the switch on key_size: the status, and the key_type code it stores
  -- (the default case returns bad_param, leaving key_type unchanged)
  let sw : srtp_err_status × Nat :=
    if c.key_size = SRTP_AES_256_KEY_LEN then
      (srtp_err_status.ok, HI_UNF_CIPHER_KEY_AES_256BIT)
    else if c.key_size = SRTP_AES_192_KEY_LEN then
      (srtp_err_status.ok, HI_UNF_CIPHER_KEY_AES_192BIT)
    else if c.key_size = SRTP_AES_128_KEY_LEN then
      (srtp_err_status.ok, HI_UNF_CIPHER_KEY_AES_128BIT)
    else
      (srtp_err_status.bad_param, c.key_type)
  { status := sw.1,
    ctx := { c with counter := counter2, offset := offset2,
                    key := some newKey, key_type := sw.2 },
    freedOldKey := c.key.isSome, zeroedOldKey := false }

/-- `srtp_aes_icm_hisi_set_iv` (aes_icm_hisi.c lines 308-351).  Fails
with `bad_param` when no key is held.  Otherwise loads the 16-byte
nonce from `iv`, sets `counter := offset XOR nonce`, and pushes the
configuration (key, key type, the new counter as IV) to the engine via
`HI_UNF_CIPHER_ConfigHandle`, whose outcome is the parameter
`configOk`; an engine failure is reported as `fail`.  The direction
argument is unused.  Returns the status and the mutated context. -/
def srtp_aes_icm_hisi_set_iv (c : srtp_aes_icm_ctx) (iv : Nat → Nat)
    (_dir : srtp_cipher_direction) (configOk : Bool) :
    srtp_err_status × srtp_aes_icm_ctx :=
  match c.key with
  | none => (srtp_err_status.bad_param, c)
  | some _ =>
      let nonce := v128_copy_octet_string iv
      let c' := { c with counter := v128_xor c.offset nonce }
      if configOk then (srtp_err_status.ok, c')
      else (srtp_err_status.fail, c')

/-- `memcpy(buf, soutbuf, n)`: the first `n` bytes are replaced by the
staging buffer's bytes, the rest of `buf` keeps its old value. -/
def memcpy_bytes (dst src : List Nat) (n : Nat) : List Nat :=
  src.take n ++ dst.drop n

/-- Result of `srtp_aes_icm_hisi_encrypt`: status, the context after the
call, the caller's buffer after the call, and the reported length. -/
structure EncResult where
  status : srtp_err_status
  ctx : srtp_aes_icm_ctx
  buf : List Nat
  enc_len : Nat

/-- `srtp_aes_icm_hisi_encrypt` (aes_icm_hisi.c lines 361-388).  Holds
an 8192-byte staging buffer `soutbuf` and asserts
`*enc_len < sizeof(soutbuf)`; an assertion failure aborts the process,
modelled as `none`.  A zero length is an immediate no-op success.
Otherwise `HI_UNF_CIPHER_EncryptVir(hCipher, buf, soutbuf, *enc_len)` is
invoked — modelled by the collaborator `engine`, which reads the length
and the buffer and either fails (`none`) or produces the staged output
bytes; on engine failure the function returns `cipher_fail` without
touching `buf`, and on success the staged bytes are copied back over
the first `*enc_len` bytes of `buf`.  `*enc_len` is never written.  The
context is never written (its counter is only read for a debug print). -/
def srtp_aes_icm_hisi_encrypt (c : srtp_aes_icm_ctx) (buf : List Nat)
    (enc_len : Nat) (engine : Nat → List Nat → Option (List Nat)) :
    Option EncResult :=
  if enc_len < 8192 then
    if enc_len = 0 then
      some { status := srtp_err_status.ok, ctx := c, buf := buf,
             enc_len := enc_len }
    else
      match engine enc_len buf with
      | none =>
          some { status := srtp_err_status.cipher_fail, ctx := c, buf := buf,
                 enc_len := enc_len }
      | some soutbuf =>
          some { status := srtp_err_status.ok, ctx := c,
                 buf := memcpy_bytes buf soutbuf enc_len, enc_len := enc_len }
  else
    none

/-! Concrete sample values used by witnesses and counterexamples. -/

/-- A context fresh from a successful AES-128 allocation (no key yet). -/
def ctxFresh : srtp_aes_icm_ctx :=
  { counter := v128_set_to_zero, offset := v128_set_to_zero,
    key := none, key_size := SRTP_AES_128_KEY_LEN, key_type := 0, hCipher := 7 }

/-- Sample key-material byte stream: byte `n` is `n % 256`. -/
def keyStream : Nat → Nat := fun n => n % 256

/-- Sample 16-byte nonce stream: byte `n` is `n + 1` (so byte 14 is 15,
nonzero). -/
def ivStream : Nat → Nat := fun n => n + 1

/-- A context that already holds a key buffer. -/
def ctxWithKey : srtp_aes_icm_ctx :=
  { ctxFresh with key := some (List.ofFn fun i : Fin 16 => keyStream i.val) }

/-- A cipher whose state holds key material (as left by a successful
allocate followed by context-init). -/
def cipherWithKey : srtp_cipher :=
  { state := some ctxWithKey, algorithm := some CipherAlg.aes_icm_128,
    type := some CipherAlg.aes_icm_128,
    key_len := SRTP_AES_ICM_128_KEY_LEN_WSALT }

/-! Helper lemmas shared by several claims. -/

/-- After context-init, byte `i` of `offset` is the salt byte
`key (key_size + i)` for `i < 14` and zero for `i ∈ {14, 15}`. -/
theorem context_init_offset_byte (c : srtp_aes_icm_ctx) (key : Nat → Nat)
    (i : Fin 16) :
    (srtp_aes_icm_hisi_context_init c key).ctx.offset i =
      if i.val < SRTP_SALT_LEN then key (c.key_size + i.val) else 0 := by
  unfold srtp_aes_icm_hisi_context_init v128_set_byte v128_memcpy_first
    v128_set_to_zero SRTP_SALT_LEN
  dsimp only
  split_ifs <;> first | rfl | omega

/-- After context-init, byte `i` of `counter` is the salt byte
`key (key_size + i)` for `i < 14` and zero for `i ∈ {14, 15}`. -/
theorem context_init_counter_byte (c : srtp_aes_icm_ctx) (key : Nat → Nat)
    (i : Fin 16) :
    (srtp_aes_icm_hisi_context_init c key).ctx.counter i =
      if i.val < SRTP_SALT_LEN then key (c.key_size + i.val) else 0 := by
  unfold srtp_aes_icm_hisi_context_init v128_set_byte v128_memcpy_first
    v128_set_to_zero SRTP_SALT_LEN
  dsimp only
  split_ifs <;> first | rfl | omega

/-- Context-init always installs a fresh key buffer. -/
theorem context_init_key (c : srtp_aes_icm_ctx) (key : Nat → Nat) :
    (srtp_aes_icm_hisi_context_init c key).ctx.key =
      some (List.ofFn fun i : Fin c.key_size => key i.val) := rfl

/-- On a context holding a key, set-IV keeps the offset and XORs the
counter, whatever the engine-configuration outcome. -/
theorem set_iv_some (c : srtp_aes_icm_ctx) (k : List Nat)
    (hk : c.key = some k) (iv : Nat → Nat) (dir : srtp_cipher_direction)
    (configOk : Bool) :
    (srtp_aes_icm_hisi_set_iv c iv dir configOk).2 =
      { c with counter := v128_xor c.offset (v128_copy_octet_string iv) } := by
  unfold srtp_aes_icm_hisi_set_iv
  rw [hk]
  cases configOk <;> rfl

/-! Claim theorems. -/

/-- Claim C1: for every cipher state, set-IV fails with
`bad_param` (InvalidParameter) when no key has been set by a prior
context-init, and otherwise sets the working counter to the byte-wise
XOR of the fixed offset and the 16-byte packet nonce, across all 16
bytes. -/
theorem C1_set_iv_requires_key_and_xors_counter (c : srtp_aes_icm_ctx)
    (iv : Nat → Nat) (dir : srtp_cipher_direction) (configOk : Bool) :
    (c.key = none →
      srtp_aes_icm_hisi_set_iv c iv dir configOk =
        (srtp_err_status.bad_param, c)) ∧
    (∀ k, c.key = some k → ∀ i : Fin 16,
      (srtp_aes_icm_hisi_set_iv c iv dir configOk).2.counter i =
        Nat.xor (c.offset i) (iv i.val)) := by
  constructor
  · intro h
    unfold srtp_aes_icm_hisi_set_iv
    rw [h]
  · intro k hk i
    rw [set_iv_some c k hk iv dir configOk]
    rfl

/-- Witness for C1, at a concrete keyed context, nonce and byte index. -/
theorem C1_witness :
    (srtp_aes_icm_hisi_set_iv ctxWithKey ivStream srtp_cipher_direction.encrypt
        true).2.counter ⟨3, by decide⟩ =
      Nat.xor (ctxWithKey.offset ⟨3, by decide⟩) (ivStream 3) :=
  (C1_set_iv_requires_key_and_xors_counter ctxWithKey ivStream
    srtp_cipher_direction.encrypt true).2 _ rfl ⟨3, by decide⟩

/-- Claim C2: after context-init on a state whose `key_size` is one of
the three raw AES key lengths, bytes `[0..14)` of both the offset and
the working counter equal the 14 salt bytes
`keyMaterial[key_size .. key_size+14)`, and bytes `[14..16)` of both are
zero, for every key-material input. -/
theorem C2_init_salt_layout (c : srtp_aes_icm_ctx) (key : Nat → Nat)
    (_h : c.key_size = SRTP_AES_128_KEY_LEN ∨
          c.key_size = SRTP_AES_192_KEY_LEN ∨
          c.key_size = SRTP_AES_256_KEY_LEN)
    (i : Fin 16) :
    (i.val < SRTP_SALT_LEN →
      (srtp_aes_icm_hisi_context_init c key).ctx.offset i =
          key (c.key_size + i.val) ∧
      (srtp_aes_icm_hisi_context_init c key).ctx.counter i =
          key (c.key_size + i.val)) ∧
    (SRTP_SALT_LEN ≤ i.val →
      (srtp_aes_icm_hisi_context_init c key).ctx.offset i = 0 ∧
      (srtp_aes_icm_hisi_context_init c key).ctx.counter i = 0) := by
  rw [context_init_offset_byte, context_init_counter_byte]
  constructor
  · intro hlt
    rw [if_pos hlt]
    exact ⟨rfl, rfl⟩
  · intro hge
    rw [if_neg (by omega)]
    exact ⟨rfl, rfl⟩

/-- Witness for C2, on a fresh AES-128 context with a concrete key
stream, at a salt byte (index 2) and a block-counter byte (index 14). -/
theorem C2_witness :
    ((srtp_aes_icm_hisi_context_init ctxFresh keyStream).ctx.offset
          ⟨2, by decide⟩ = keyStream (ctxFresh.key_size + 2) ∧
     (srtp_aes_icm_hisi_context_init ctxFresh keyStream).ctx.counter
          ⟨2, by decide⟩ = keyStream (ctxFresh.key_size + 2)) ∧
    ((srtp_aes_icm_hisi_context_init ctxFresh keyStream).ctx.offset
          ⟨14, by decide⟩ = 0 ∧
     (srtp_aes_icm_hisi_context_init ctxFresh keyStream).ctx.counter
          ⟨14, by decide⟩ = 0) :=
  ⟨(C2_init_salt_layout ctxFresh keyStream (Or.inl rfl) ⟨2, by decide⟩).1
      (by decide),
   (C2_init_salt_layout ctxFresh keyStream (Or.inl rfl) ⟨14, by decide⟩).2
      (by decide)⟩

/-- Counterexample to claim C3 as stated: on a freshly initialized
AES-128 context, a set-IV call that SUCCEEDS with a nonce whose byte 14
is nonzero (here `ivStream 14 = 15`) leaves the working counter's
block-counter field nonzero: byte 14 of the counter is 15 immediately
after set-IV, because `v128_xor` runs over all 16 bytes and nothing
re-zeroes bytes 14 and 15 afterwards. -/
theorem C3_counterexample :
    (srtp_aes_icm_hisi_set_iv (srtp_aes_icm_hisi_context_init ctxFresh
        keyStream).ctx ivStream srtp_cipher_direction.encrypt true).1 =
      srtp_err_status.ok ∧
    (srtp_aes_icm_hisi_set_iv (srtp_aes_icm_hisi_context_init ctxFresh
        keyStream).ctx ivStream srtp_cipher_direction.encrypt true).2.counter
      ⟨14, by decide⟩ = 15 := by
  constructor
  · rfl
  · rw [set_iv_some _ _ (context_init_key ctxFresh keyStream)]
    show Nat.xor ((srtp_aes_icm_hisi_context_init ctxFresh
      keyStream).ctx.offset ⟨14, by decide⟩) (ivStream 14) = 15
    rw [context_init_offset_byte]
    rfl

/-- Claim C3 as amended: for every key-material input and every 16-byte
nonce, the block-counter field (bytes `[14..16)`) of both the offset and
the working counter is zero immediately after context-init; immediately
after set-IV the OFFSET's block-counter field is still zero, while the
COUNTER's block-counter field equals the corresponding nonce byte (so it
is zero exactly when the nonce's bytes `[14..16)` are zero). -/
theorem C3_amended_block_counter_field (c : srtp_aes_icm_ctx)
    (key : Nat → Nat) (nonce : Nat → Nat) (dir : srtp_cipher_direction)
    (configOk : Bool) (i : Fin 16) (hi : SRTP_SALT_LEN ≤ i.val) :
    ((srtp_aes_icm_hisi_context_init c key).ctx.offset i = 0 ∧
     (srtp_aes_icm_hisi_context_init c key).ctx.counter i = 0) ∧
    ((srtp_aes_icm_hisi_set_iv (srtp_aes_icm_hisi_context_init c key).ctx
        nonce dir configOk).2.offset i = 0 ∧
     (srtp_aes_icm_hisi_set_iv (srtp_aes_icm_hisi_context_init c key).ctx
        nonce dir configOk).2.counter i = nonce i.val) := by
  have hoff : (srtp_aes_icm_hisi_context_init c key).ctx.offset i = 0 := by
    rw [context_init_offset_byte, if_neg (by omega)]
  have hctr : (srtp_aes_icm_hisi_context_init c key).ctx.counter i = 0 := by
    rw [context_init_counter_byte, if_neg (by omega)]
  refine ⟨⟨hoff, hctr⟩, ?_, ?_⟩
  · rw [set_iv_some _ _ (context_init_key c key)]
    exact hoff
  · rw [set_iv_some _ _ (context_init_key c key)]
    show Nat.xor ((srtp_aes_icm_hisi_context_init c key).ctx.offset i)
      (nonce i.val) = nonce i.val
    rw [hoff]
    exact Nat.zero_xor _

/-- Witness for the amended C3, on a fresh AES-128 context with concrete
key and nonce streams, at byte index 15. -/
theorem C3_witness :
    ((srtp_aes_icm_hisi_context_init ctxFresh keyStream).ctx.offset
        ⟨15, by decide⟩ = 0 ∧
     (srtp_aes_icm_hisi_context_init ctxFresh keyStream).ctx.counter
        ⟨15, by decide⟩ = 0) ∧
    ((srtp_aes_icm_hisi_set_iv (srtp_aes_icm_hisi_context_init ctxFresh
        keyStream).ctx ivStream srtp_cipher_direction.encrypt true).2.offset
        ⟨15, by decide⟩ = 0 ∧
     (srtp_aes_icm_hisi_set_iv (srtp_aes_icm_hisi_context_init ctxFresh
        keyStream).ctx ivStream srtp_cipher_direction.encrypt true).2.counter
        ⟨15, by decide⟩ = ivStream 15) :=
  C3_amended_block_counter_field ctxFresh keyStream ivStream
    srtp_cipher_direction.encrypt true ⟨15, by decide⟩ (by decide)

/-- Claim C4 (code bug, evaluated): allocation with the AES-192 combined
key length (`SRTP_AES_ICM_192_KEY_LEN_WSALT` = 38) RETURNS OK but, the
192 branch of the switch being commented out in the source, leaves the
state's `key_size` at the allocator's zero value instead of 24 and binds
no algorithm/type descriptor — while the AES-128 and AES-256 lengths do
set `key_size` to 16 resp. 32 and bind their descriptors.  This
contradicts the file's own AES-192 self-test vector table and its
exported `srtp_aes_icm_192` dispatch table. -/
theorem C4_alloc_192_branch_unset :
    (srtp_aes_icm_hisi_alloc SRTP_AES_ICM_192_KEY_LEN_WSALT none true true
        true 7).status = srtp_err_status.ok ∧
    Option.map (fun cc => cc.algorithm)
      (srtp_aes_icm_hisi_alloc SRTP_AES_ICM_192_KEY_LEN_WSALT none true true
        true 7).cOut = some none ∧
    Option.map (fun cc => cc.type)
      (srtp_aes_icm_hisi_alloc SRTP_AES_ICM_192_KEY_LEN_WSALT none true true
        true 7).cOut = some none ∧
    Option.map (fun cc => Option.map (fun st => st.key_size) cc.state)
      (srtp_aes_icm_hisi_alloc SRTP_AES_ICM_192_KEY_LEN_WSALT none true true
        true 7).cOut = some (some 0) ∧
    Option.map (fun cc => cc.algorithm)
      (srtp_aes_icm_hisi_alloc SRTP_AES_ICM_128_KEY_LEN_WSALT none true true
        true 7).cOut = some (some CipherAlg.aes_icm_128) ∧
    Option.map (fun cc => Option.map (fun st => st.key_size) cc.state)
      (srtp_aes_icm_hisi_alloc SRTP_AES_ICM_128_KEY_LEN_WSALT none true true
        true 7).cOut = some (some SRTP_AES_128_KEY_LEN) ∧
    Option.map (fun cc => cc.algorithm)
      (srtp_aes_icm_hisi_alloc SRTP_AES_ICM_256_KEY_LEN_WSALT none true true
        true 7).cOut = some (some CipherAlg.aes_icm_256) ∧
    Option.map (fun cc => Option.map (fun st => st.key_size) cc.state)
      (srtp_aes_icm_hisi_alloc SRTP_AES_ICM_256_KEY_LEN_WSALT none true true
        true 7).cOut = some (some SRTP_AES_256_KEY_LEN) :=
  ⟨rfl, rfl, rfl, rfl, rfl, rfl, rfl, rfl⟩

/-- Claim C5: for every key-length value other than the three defined
combined lengths, allocation fails with `bad_param`, leaves the caller's
output slot exactly as it was, and performs no allocation (no heap block
is live at return). -/
theorem C5_alloc_rejects_bad_key_len (key_len : Nat)
    (c0 : Option srtp_cipher) (m1 m2 ch : Bool) (handle : Nat)
    (h1 : key_len ≠ SRTP_AES_ICM_128_KEY_LEN_WSALT)
    (h2 : key_len ≠ SRTP_AES_ICM_192_KEY_LEN_WSALT)
    (h3 : key_len ≠ SRTP_AES_ICM_256_KEY_LEN_WSALT) :
    srtp_aes_icm_hisi_alloc key_len c0 m1 m2 ch handle =
      { status := srtp_err_status.bad_param, cOut := c0, liveAllocs := 0 } := by
  unfold srtp_aes_icm_hisi_alloc
  rw [if_pos ⟨h1, h2, h3⟩]

/-- Witness for C5 at the concrete invalid length 31. -/
theorem C5_witness :
    srtp_aes_icm_hisi_alloc 31 none true true true 7 =
      { status := srtp_err_status.bad_param, cOut := none, liveAllocs := 0 } :=
  C5_alloc_rejects_bad_key_len 31 none true true true 7 (by decide) (by decide)
    (by decide)

/-- Claim C6 (code bug, evaluated): neither key-release path zeroizes
the key bytes.  Re-initializing a context that already holds a key frees
the old buffer WITHOUT zeroing it first, and deallocating a cipher whose
state holds key material zeroes only the context struct (which contains
the key pointer) — the separately `malloc`ed key buffer is neither
zeroed nor freed, despite the source's own "zeroize the key material"
comment. -/
theorem C6_key_release_not_zeroed :
    ((srtp_aes_icm_hisi_context_init ctxWithKey keyStream).freedOldKey = true ∧
     (srtp_aes_icm_hisi_context_init ctxWithKey keyStream).zeroedOldKey =
        false) ∧
    ((srtp_aes_icm_hisi_dealloc (some cipherWithKey)).status =
        srtp_err_status.ok ∧
     (srtp_aes_icm_hisi_dealloc (some cipherWithKey)).zeroedCtxStruct = true ∧
     (srtp_aes_icm_hisi_dealloc (some cipherWithKey)).zeroedKeyBuffer = false ∧
     (srtp_aes_icm_hisi_dealloc (some cipherWithKey)).freedKeyBuffer = false) :=
  ⟨⟨rfl, rfl⟩, rfl, rfl, rfl, rfl⟩

/-- Counterexample to claim C7 as stated: deallocation of a null state
reference does NOT return success. -/
theorem C7_counterexample :
    (srtp_aes_icm_hisi_dealloc none).status ≠ srtp_err_status.ok := by
  decide

/-- Claim C7 as amended: deallocation invoked on a null state reference
is a no-op (destroys no handle, zeroes nothing, frees nothing) that
returns `bad_param` (InvalidParameter), not success. -/
theorem C7_amended_dealloc_null :
    srtp_aes_icm_hisi_dealloc none =
      { status := srtp_err_status.bad_param, destroyedHandle := false,
        zeroedCtxStruct := false, zeroedKeyBuffer := false,
        freedKeyBuffer := false, freedCtx := false, freedCipher := false } :=
  rfl

/-- Counterexample to claim C8 as stated: a transform length of exactly
8192 bytes does not exceed the documented 8192-byte single-call maximum,
yet the internal assertion `*enc_len < sizeof(soutbuf)` is strict, so
the call hits the assertion-failure branch (modelled as `none`). -/
theorem C8_counterexample :
    8192 ≤ 8192 ∧
    srtp_aes_icm_hisi_encrypt ctxWithKey [] 8192 (fun _ _ => none) = none :=
  ⟨by decide, rfl⟩

/-- Claim C8 as amended: for every transform call whose length is
STRICTLY below 8192 bytes (at most 8191), the buffer-capacity assertion
holds — the assertion-failure branch is unreachable and the call returns
a result. -/
theorem C8_amended_length_assert (c : srtp_aes_icm_ctx) (buf : List Nat)
    (enc_len : Nat) (engine : Nat → List Nat → Option (List Nat))
    (h : enc_len < 8192) :
    (srtp_aes_icm_hisi_encrypt c buf enc_len engine).isSome = true := by
  unfold srtp_aes_icm_hisi_encrypt
  rw [if_pos h]
  split
  · rfl
  · cases engine enc_len buf <;> rfl

/-- Witness for the amended C8 at a concrete one-byte call. -/
theorem C8_witness :
    (srtp_aes_icm_hisi_encrypt ctxWithKey [0] 1 (fun _ b => some b)).isSome =
      true :=
  C8_amended_length_assert ctxWithKey [0] 1 (fun _ b => some b) (by decide)

/-- Claim C9: transform never modifies the state's working counter: for
every state, buffer, length and engine outcome, whenever the call
returns (does not abort on the assertion), the counter after the call
equals its value before. -/
theorem C9_encrypt_preserves_counter (c : srtp_aes_icm_ctx) (buf : List Nat)
    (enc_len : Nat) (engine : Nat → List Nat → Option (List Nat))
    (r : EncResult) (h : srtp_aes_icm_hisi_encrypt c buf enc_len engine = some r) :
    r.ctx.counter = c.counter := by
  unfold srtp_aes_icm_hisi_encrypt at h
  split at h
  · split at h
    · simp only [Option.some.injEq] at h
      subst h
      rfl
    · split at h
      · simp only [Option.some.injEq] at h
        subst h
        rfl
      · simp only [Option.some.injEq] at h
        subst h
        rfl
  · exact absurd h (by simp)

/-- Witness for C9 at a concrete one-byte call through a successful
engine. -/
theorem C9_witness :
    ({ status := srtp_err_status.ok, ctx := ctxWithKey,
       buf := memcpy_bytes [5] [5] 1, enc_len := 1 } :
        EncResult).ctx.counter = ctxWithKey.counter :=
  C9_encrypt_preserves_counter ctxWithKey [5] 1 (fun _ b => some b) _ rfl

/-- Claim C10: if the external engine's encrypt-buffer call fails,
transform returns `cipher_fail` and leaves the caller's buffer and the
reported length completely unchanged (the staged output is copied back
only on engine success). -/
theorem C10_engine_failure_buffer_unchanged (c : srtp_aes_icm_ctx)
    (buf : List Nat) (enc_len : Nat)
    (engine : Nat → List Nat → Option (List Nat))
    (hlen : enc_len < 8192) (h0 : enc_len ≠ 0)
    (hE : engine enc_len buf = none) :
    srtp_aes_icm_hisi_encrypt c buf enc_len engine =
      some { status := srtp_err_status.cipher_fail, ctx := c, buf := buf,
             enc_len := enc_len } := by
  unfold srtp_aes_icm_hisi_encrypt
  rw [if_pos hlen, if_neg h0, hE]

/-- Witness for C10 at a concrete two-byte call through a failing
engine. -/
theorem C10_witness :
    srtp_aes_icm_hisi_encrypt ctxWithKey [9, 9] 2 (fun _ _ => none) =
      some { status := srtp_err_status.cipher_fail, ctx := ctxWithKey,
             buf := [9, 9], enc_len := 2 } :=
  C10_engine_failure_buffer_unchanged ctxWithKey [9, 9] 2 (fun _ _ => none)
    (by decide) (by decide) rfl
